import Mathlib

/-!
Shallow embedding of the gameboi CPU core (src/lib.rs) and of the MMU
interface (src/mmu.rs).

Conventions of the embedding:
* Machine integers (`u8`, `u16`) are modelled as `Nat`, with `% 256` /
  `% 65536` inserted exactly where the source wraps.
* The model follows the crate's debug profile (`cfg!(debug_assertions) =
  true`, the profile `cargo test` uses): the `debug_assert!` checks in the
  `from_u8` conversions and the contract panics in the register accessors
  are active.
* Fallible code is `Option` / `Except`.  A Rust panic (`assert!`,
  `debug_assert!`, `unreachable!`, `todo!`, out-of-bounds indexing, failed
  `try_into`/`expect`) is modelled as `Except.error s` where `s` is the CPU
  state at the moment of the panic — this is the state an unwinding caller
  would observe, which is what the atomicity claims are about.
* `self.pc` is modelled as a plain `Nat`; the (unreachable for any stream
  that fits in the 16-bit address space) `u16` overflow of `pc += 1` is not
  modelled.
* The `tick!` macro of the source expands to nothing, so cycle costs do
  not appear in the model.
-/

namespace Gameboi

/-- The 8-bit registers of the CPU (`enum Reg`, with its `repr(u8)`
discriminants given by `Reg.idx`). -/
inductive Reg where
  | Invalid
  | A
  | F
  | B
  | C
  | D
  | E
  | H
  | L
  | SP
deriving DecidableEq

/-- The `repr(u8)` discriminant of a `Reg` value. -/
def Reg.idx : Reg → Nat
  | .Invalid => 0
  | .A => 1
  | .F => 2
  | .B => 3
  | .C => 4
  | .D => 5
  | .E => 6
  | .H => 7
  | .L => 8
  | .SP => 9

/-- `Reg::from_u8`: `debug_assert!(value <= 9)` then a transmute.  The
debug assertion failure is `none`; every value `0..=9` is a valid
discriminant. -/
def Reg.fromU8 (v : Nat) : Option Reg :=
  if v ≤ 9 then
    some (match v with
      | 0 => .Invalid
      | 1 => .A
      | 2 => .F
      | 3 => .B
      | 4 => .C
      | 5 => .D
      | 6 => .E
      | 7 => .H
      | 8 => .L
      | _ => .SP)
  else none

/-- Register sets used as address containers (`enum RegAddr`,
discriminants 0 and 10..14). -/
inductive RegAddr where
  | Invalid
  | HL
  | HLPlus
  | HLMinus
  | BC
  | DE
deriving DecidableEq

/-- `RegAddr::from_u8`: `debug_assert!((value >= 10 && value <= 15) ||
value == 0)` then a transmute.  A failed debug assertion is `none`; the
value 15 passes the assertion but is not a valid discriminant (undefined
behaviour in the source), it is modelled as a fault as well. -/
def RegAddr.fromU8 (v : Nat) : Option RegAddr :=
  if (10 ≤ v ∧ v ≤ 15) ∨ v = 0 then
    match v with
    | 0 => some .Invalid
    | 10 => some .HL
    | 11 => some .HLPlus
    | 12 => some .HLMinus
    | 13 => some .BC
    | 14 => some .DE
    | _ => none
  else none

/-- The instruction-kind tags (`enum InstrKind`), one constructor per
source variant. -/
inductive InstrKind where
  | Nop
  | Halt
  | LdRegReg
  | LdRegImm
  | LdRegMem
  | LdMemReg
  | LdMemHLImm
  | AddRegReg
  | AddRegImm
  | AddMemReg
  | AddWRegWReg
  | AddWRegImm
  | AdcRegReg
  | AdcRegImm
  | AdcMemReg
  | SubReg
  | SubImm
  | SubMem
  | SbcReg
  | SbcImm
  | SbcMem
  | AndReg
  | AndImm
  | AndMem
  | XorReg
  | XorImm
  | XorMem
  | OrReg
  | OrImm
  | OrMem
  | IncReg
  | IncWReg
  | IncMem
  | DecReg
  | DecWReg
  | DecMem
  | CpReg
  | CpImm
  | CpMem
  | LdWRegImm
  | LdMemImmReg
  | Push
  | Pop
  | AddSPImm
  | JPImm
  | JPCond
  | JPReg
  | JRelImm
  | JRelCond
  | Rst
  | RlcA
  | RlA
  | RrcA
  | RrA
  | RlcReg
  | RlcMem
  | RrcReg
  | RrcMem
  | RlReg
  | RlMem
  | RrReg
  | RrMem
  | SlaReg
  | SlaMem
  | SraReg
  | SraMem
  | SwapReg
  | SwapMem
  | SrlReg
  | SrlMem
  | BitReg
  | BitMem
  | ResReg
  | ResMem
  | SetReg
  | SetMem
  | Ret
  | RetCond
  | Reti

/-- `InstrKind::from_u8`: `debug_assert!(value <= 10)` then a transmute.
In the modelled debug profile every table entry above 10 therefore faults
here; the values `0..=10` are the discriminants `Nop..AddWRegWReg`. -/
def InstrKind.fromU8 (v : Nat) : Option InstrKind :=
  if v ≤ 10 then
    some (match v with
      | 0 => .Nop
      | 1 => .Halt
      | 2 => .LdRegReg
      | 3 => .LdRegImm
      | 4 => .LdRegMem
      | 5 => .LdMemReg
      | 6 => .LdMemHLImm
      | 7 => .AddRegReg
      | 8 => .AddRegImm
      | 9 => .AddMemReg
      | _ => .AddWRegWReg)
  else none

/-- The fully decoded instructions (`enum Instr`).  Immediates (`u8` /
`u16` fields in the source) are `Nat`. -/
inductive Instr where
  | Nop
  | Halt
  | LdRegReg (src dst : Reg)
  | LdRegImm (src : Nat) (dst : Reg)
  | LdRegMem (src : Reg) (dst : RegAddr)
  | LdMemReg (src : RegAddr) (dst : Reg)
  | LdMemHLImm
  | AddRegReg (src dst : Reg)
  | AddRegImm (src : Nat) (dst : Reg)
  | AddMemReg (src : RegAddr) (dst : Reg)
  | AddWRegWReg (src dst : Reg)
  | AddWRegImm (src : Nat) (dst : Reg)
  | AdcRegReg (src dst : Reg)
  | AdcRegImm (src : Nat) (dst : Reg)
  | AdcMemReg (src : RegAddr) (dst : Reg)
  | SubReg (src : Reg)
  | SubImm (src : Nat)
  | SubMem (src : RegAddr)
  | SbcReg (src : Reg)
  | SbcImm (src : Nat)
  | SbcMem (src : RegAddr)
  | AndReg (src : Reg)
  | AndImm (src : Nat)
  | AndMem (src : RegAddr)
  | OrReg (src : Reg)
  | OrImm (src : Nat)
  | OrMem (src : RegAddr)
  | IncReg (dst : Reg)
  | IncWReg (dst : Reg)
  | IncMem (dst : RegAddr)
  | DecReg (dst : Reg)
  | DecWReg (dst : Reg)
  | DecMem (dst : RegAddr)
  | CpReg (src : Reg)
  | CpImm (src : Nat)
  | CpMem (src : RegAddr)
  | LdWRegImm (src : Nat) (dst : Reg)
  | LdMemImmReg (src : Reg) (dst : Nat)
  | Push (src : Reg)
  | Pop (dst : Reg)
  | JPImm (addr : Nat)
  | JPCond (cond : Nat) (addr : Nat)
  | JPReg (src : Reg)
  | JRelImm (offset : Nat)
  | JRelCond (cond : Nat) (offset : Nat)
  | Rst (addr : Nat)
  | RlcReg (reg : Reg)
  | RlcMem (reg : RegAddr)
  | RrcReg (reg : Reg)
  | RrcMem (reg : RegAddr)
  | RlReg (reg : Reg)
  | RlMem (reg : RegAddr)
  | RrReg (reg : Reg)
  | RrMem (reg : RegAddr)
  | SlaReg (reg : Reg)
  | SlaMem (reg : RegAddr)
  | SraReg (reg : Reg)
  | SraMem (reg : RegAddr)
  | SwapReg (reg : Reg)
  | SwapMem (reg : RegAddr)
  | SrlReg (reg : Reg)
  | SrlMem (reg : RegAddr)
  | BitReg (reg : Reg) (bit : Nat)
  | BitMem (reg : RegAddr) (bit : Nat)
  | ResReg (reg : Reg) (bit : Nat)
  | ResMem (reg : RegAddr) (bit : Nat)
  | SetReg (reg : Reg) (bit : Nat)
  | SetMem (reg : RegAddr) (bit : Nat)

/-- Zero flag, bit 7. -/
def FLAG_Z : Nat := 128

/-- Subtract flag, bit 6. -/
def FLAG_N : Nat := 64

/-- Half-carry flag, bit 5.  Source documentation: set when an 8-bit
arithmetic operation carries out of bit 3. -/
def FLAG_H : Nat := 32

/-- Carry flag, bit 4. -/
def FLAG_C : Nat := 16

/-- `NZ` condition mask of the source (`FLAG_N | FLAG_Z`). -/
def NZ : Nat := FLAG_N ||| FLAG_Z

/-- `NC` condition mask of the source (`FLAG_N | FLAG_C`). -/
def NC : Nat := FLAG_N ||| FLAG_C

/-- `Z` condition mask of the source (`FLAG_Z`). -/
def Z : Nat := FLAG_Z

/-- `C` condition mask of the source (`FLAG_C`). -/
def C : Nat := FLAG_C

/-- `INST_KIND_TABLE`: opcode byte to `InstrKind` discriminant. -/
def INST_KIND_TABLE : List Nat := [
    0,40, 4, 0, 0, 0, 3, 0, 0,10, 5, 0, 0, 0, 3, 0,
    0,40, 4, 0, 0, 0, 3, 0,48,10, 5, 0, 0, 0, 3, 0,
   49,40, 4, 0, 0, 0, 3, 0,49,10, 5, 0, 0, 0, 3, 0,
   49,40, 4, 0, 0, 0, 3, 0,49,10, 5, 0, 0, 0, 3, 0,
    2, 2, 2, 2, 2, 2, 5, 2, 2, 2, 2, 2, 2, 2, 5, 2,
    2, 2, 2, 2, 2, 2, 5, 2, 2, 2, 2, 2, 2, 2, 5, 2,
    2, 2, 2, 2, 2, 2, 5, 2, 2, 2, 2, 2, 2, 2, 5, 2,
    4, 4, 4, 4, 4, 4, 1, 4, 2, 2, 2, 2, 2, 2, 5, 2,
    7, 7, 7, 7, 7, 7, 9, 7,12,12,12,12,12,12,14,12,
   15,15,15,15,15,15,17,15,18,18,18,18,18,18,18,18,
   21,21,21,21,21,21,23,21,24,24,24,24,24,24,24,24,
   27,27,27,27,27,27,27,28, 0, 0, 0, 0, 0, 0, 0, 0,
    0,43, 0,46,45,42, 9, 0, 0, 0, 0,46, 0, 0,13, 0,
    0,43, 0,46, 0,42,16, 0, 0, 0, 0,46, 0, 0,19, 0,
    0,43, 0, 0, 0,42,22, 0,11, 0,47, 0, 0, 0,25, 0,
    0,43, 0, 0, 0,42,28, 0, 0, 0,10, 0, 0, 0, 0, 0]

/-- `SRC_TABLE`: opcode byte to source-operand encoding. -/
def SRC_TABLE : List Nat := [
    0, 0, 1, 3, 3, 3, 0, 0, 9, 3,13, 3, 4, 3, 0, 0,
    0, 0, 1, 5, 5, 5, 0, 0, 0, 5,14, 5, 6, 5, 0, 0,
   NZ, 0, 1, 7, 7, 7, 0, 0, Z, 7,11, 7, 8, 8, 0, 0,
   NC, 0, 1, 9,10,10, 0, 0, C, 9,12, 9, 1, 1, 0, 0,
    3, 3, 4, 6, 7, 8,10, 1, 3, 4, 5, 6, 7, 8,10, 1,
    3, 4, 5, 6, 7, 8,10, 1, 3, 4, 5, 6, 7, 8,10, 1,
    3, 4, 5, 6, 7, 8,10, 1, 3, 4, 5, 6, 7, 8,10, 1,
    3, 4, 5, 6, 7, 8, 0, 1, 3, 4, 5, 6, 7, 8,10, 1,
    3, 4, 5, 6, 7, 8,10, 1, 3, 4, 5, 6, 7, 8,10, 1,
    3, 4, 5, 6, 7, 8,10, 1, 3, 4, 5, 6, 7, 8,10, 1,
    3, 4, 5, 6, 7, 8,10, 1, 3, 4, 5, 6, 7, 8,10, 1,
    3, 4, 5, 6, 7, 8,10, 1, 3, 4, 5, 6, 7, 8,10, 1,
   NZ, 3,NZ, 0, 0, 3, 0, 0, Z, 0, Z, 0, Z, 0, 0, 0,
   NC, 5,NC, 0, 0, 5, 0, 0, C, 0, C, 0, C, 0, 0, 0,
    0, 7, 0, 0, 0, 7, 0, 0, 0, 0, 0, 0, 0, 0, 0, 0,
    0, 1, 0, 1, 0, 1, 0, 0, 0, 0, 7, 0, 0, 0, 0, 0]

/-- `DST_TABLE`: opcode byte to destination-operand encoding. -/
def DST_TABLE : List Nat := [
    0, 3,12, 0, 0, 0, 3, 0, 0, 7, 1, 0, 0, 4, 0, 0,
    0, 5,13, 0, 0, 0, 5, 0, 0, 7, 1, 0, 0, 6, 0, 0,
    0, 7,10, 0, 0, 0, 7, 0, 0, 7, 1, 0, 0, 8, 0, 0,
    0, 9,11, 0, 0, 0, 9, 0, 0, 7, 1, 0, 0, 1, 0, 0,
    3, 3, 3, 3, 3, 3, 3, 3, 4, 4, 4, 4, 4, 4, 4, 4,
    5, 5, 5, 5, 5, 5, 5, 5, 6, 6, 6, 6, 6, 6, 6, 6,
    7, 7, 7, 7, 7, 7, 7, 7, 8, 8, 8, 8, 8, 8, 8, 8,
   10,10,10,10,10,10, 0,10, 1, 1, 1, 1, 1, 1, 1, 1,
    1, 1, 1, 1, 1, 1, 1, 1, 1, 1, 1, 1, 1, 1, 1, 1,
    0, 0, 0, 0, 0, 0, 0, 0, 1, 1, 1, 1, 1, 1, 1, 1,
    0, 0, 0, 0, 0, 0, 0, 0, 0, 0, 0, 0, 0, 0, 0, 0,
    0, 0, 0, 0, 0, 0, 1, 0, 0, 0, 0, 0, 0, 0, 1, 0,
    0, 0, 0, 0, 0, 0, 0, 0, 0, 0, 0, 0, 0, 0, 1, 0,
    0, 0, 0, 0, 0, 0, 0, 0, 0, 0, 0, 0, 0, 0, 0, 0,
    0, 0, 0, 0, 0, 0, 0, 0, 0, 0, 0, 0, 0, 0, 0, 0,
    0, 0, 0, 0, 0, 0, 0, 0, 0, 7, 9, 0, 0, 0, 0, 0]

/-- `PREFIX_TABLE`: kind table of the extended (0xCB) opcode space. -/
def PREFIX_TABLE : List Nat := [
   55,55,55,55,55,55,56,55,57,57,57,57,57,57,58,57,
   59,59,59,59,59,59,60,59,61,61,61,61,61,61,62,61,
   63,63,63,63,63,63,64,63,65,65,65,65,65,65,66,65,
   67,67,67,67,67,67,68,67,69,69,69,69,69,69,70,69,
   71,71,71,71,71,71,71,71,73,73,73,73,73,73,73,73,
   75,75,75,75,75,75,75,75,77,77,77,77,77,77,77,77,
   79,79,79,79,79,79,79,79,81,81,81,81,81,81,81,81,
   83,83,83,83,83,83,83,83,85,85,85,85,85,85,85,85,
   87,87,87,87,87,87,87,87,89,89,89,89,89,89,89,89,
   91,91,91,91,91,91,91,91,93,93,93,93,93,93,93,93,
   95,95,95,95,95,95,95,95,97,97,97,97,97,97,97,97,
    0, 0, 0, 0, 0, 0, 1, 0, 0, 0, 0, 0, 0, 0, 1, 0,
    0, 0, 0, 0, 0, 0, 0, 0, 0, 0, 0, 0, 0, 0, 1, 0,
    0, 0, 0, 0, 0, 0, 0, 0, 0, 0, 0, 0, 0, 0, 0, 0,
    0, 0, 0, 0, 0, 0, 0, 0, 0, 0, 0, 0, 0, 0, 0, 0,
    0, 0, 0, 0, 0, 0, 0, 0, 0, 7, 9, 0, 0, 0, 0, 0]

/-- `PREFIX_SRC_TABLE`: source-operand table of the extended space. -/
def PREFIX_SRC_TABLE : List Nat := [
   0, 0, 0, 0, 0, 0, 0, 0, 0, 0, 0, 0, 0, 0, 0, 0,
   0, 0, 0, 0, 0, 0, 0, 0, 0, 0, 0, 0, 0, 0, 0, 0,
   0, 0, 0, 0, 0, 0, 0, 0, 0, 0, 0, 0, 0, 0, 0, 0,
   0, 0, 0, 0, 0, 0, 0, 0, 0, 0, 0, 0, 0, 0, 0, 0,
   0, 0, 0, 0, 0, 0, 0, 0, 1, 1, 1, 1, 1, 1, 1, 1,
   2, 2, 2, 2, 2, 2, 2, 2, 3, 3, 3, 3, 3, 3, 3, 3,
   4, 4, 4, 4, 4, 4, 4, 4, 5, 5, 5, 5, 5, 5, 5, 5,
   6, 6, 6, 6, 6, 6, 6, 6, 7, 7, 7, 7, 7, 7, 7, 7,
   0, 0, 0, 0, 0, 0, 0, 0, 1, 1, 1, 1, 1, 1, 1, 1,
   2, 2, 2, 2, 2, 2, 2, 2, 3, 3, 3, 3, 3, 3, 3, 3,
   4, 4, 4, 4, 4, 4, 4, 4, 5, 5, 5, 5, 5, 5, 5, 5,
   6, 6, 6, 6, 6, 6, 6, 6, 7, 7, 7, 7, 7, 7, 7, 7,
   0, 0, 0, 0, 0, 0, 0, 0, 1, 1, 1, 1, 1, 1, 1, 1,
   2, 2, 2, 2, 2, 2, 2, 2, 3, 3, 3, 3, 3, 3, 3, 3,
   4, 4, 4, 4, 4, 4, 4, 4, 5, 5, 5, 5, 5, 5, 5, 5,
   6, 6, 6, 6, 6, 6, 6, 6, 7, 7, 7, 7, 7, 7, 7, 7]

/-- `PREFIX_DST_TABLE`: destination-operand table of the extended
space: the periodic pattern B,C,D,E,H,L,(HL),A in every row. -/
def PREFIX_DST_TABLE : List Nat := [
   3, 4, 5, 6, 7, 8, 10, 1, 3, 4, 5, 6, 7, 8, 10, 1,
   3, 4, 5, 6, 7, 8, 10, 1, 3, 4, 5, 6, 7, 8, 10, 1,
   3, 4, 5, 6, 7, 8, 10, 1, 3, 4, 5, 6, 7, 8, 10, 1,
   3, 4, 5, 6, 7, 8, 10, 1, 3, 4, 5, 6, 7, 8, 10, 1,
   3, 4, 5, 6, 7, 8, 10, 1, 3, 4, 5, 6, 7, 8, 10, 1,
   3, 4, 5, 6, 7, 8, 10, 1, 3, 4, 5, 6, 7, 8, 10, 1,
   3, 4, 5, 6, 7, 8, 10, 1, 3, 4, 5, 6, 7, 8, 10, 1,
   3, 4, 5, 6, 7, 8, 10, 1, 3, 4, 5, 6, 7, 8, 10, 1,
   3, 4, 5, 6, 7, 8, 10, 1, 3, 4, 5, 6, 7, 8, 10, 1,
   3, 4, 5, 6, 7, 8, 10, 1, 3, 4, 5, 6, 7, 8, 10, 1,
   3, 4, 5, 6, 7, 8, 10, 1, 3, 4, 5, 6, 7, 8, 10, 1,
   3, 4, 5, 6, 7, 8, 10, 1, 3, 4, 5, 6, 7, 8, 10, 1,
   3, 4, 5, 6, 7, 8, 10, 1, 3, 4, 5, 6, 7, 8, 10, 1,
   3, 4, 5, 6, 7, 8, 10, 1, 3, 4, 5, 6, 7, 8, 10, 1,
   3, 4, 5, 6, 7, 8, 10, 1, 3, 4, 5, 6, 7, 8, 10, 1,
   3, 4, 5, 6, 7, 8, 10, 1, 3, 4, 5, 6, 7, 8, 10, 1]

/-- CPU state: the ten-byte register array (`registers: [u8; 10]`,
indexed by `Reg.idx - 1`: A,F,B,C,D,E,H,L and the two SP bytes) and the
program counter. -/
structure Cpu where
  registers : List Nat
  pc : Nat

/-- `Cpu::new`: all registers and the program counter zeroed. -/
def Cpu.new : Cpu := ⟨List.replicate 10 0, 0⟩

/-- `Cpu::read_reg` (debug profile): panics on `Reg::Invalid`, otherwise
`registers[reg as usize - 1]`. -/
def Cpu.read_reg (cpu : Cpu) (reg : Reg) : Option Nat :=
  if reg = Reg.Invalid then none
  else some (cpu.registers.getD (reg.idx - 1) 0)

/-- `Cpu::write_reg` (debug profile): panics on `Reg::Invalid`, otherwise
stores the byte at `registers[reg as usize - 1]`. -/
def Cpu.write_reg (cpu : Cpu) (reg : Reg) (value : Nat) : Option Cpu :=
  if reg = Reg.Invalid then none
  else some { cpu with registers := cpu.registers.set (reg.idx - 1) value }

/-- `write_reg(Reg::F, _)`: writing the flag register never involves the
`Reg::Invalid` panic (`Reg.F.idx - 1 = 1`), so it is total. -/
def Cpu.writeF (cpu : Cpu) (flags : Nat) : Cpu :=
  { cpu with registers := cpu.registers.set 1 flags }

/-- `read_reg(Reg::F)`: total for the same reason. -/
def Cpu.readF (cpu : Cpu) : Nat :=
  cpu.registers.getD 1 0

/-- `Cpu::read_widereg` (debug profile): panics for
`Invalid | A | C | E | F | L`; otherwise assembles
`u16::from_le_bytes([registers[idx-1], registers[idx]])` — the low byte
is the first slot. -/
def Cpu.read_widereg (cpu : Cpu) (reg : Reg) : Option Nat :=
  if reg = Reg.Invalid ∨ reg = Reg.A ∨ reg = Reg.C ∨ reg = Reg.E ∨
     reg = Reg.F ∨ reg = Reg.L then none
  else
    some (cpu.registers.getD (reg.idx - 1) 0 +
          256 * cpu.registers.getD reg.idx 0)

/-- `Cpu::write_widereg` (debug profile): panics for
`Invalid | A | C | E | F | L`; otherwise stores
`u16::to_le_bytes(value)` — the low byte into the first slot. -/
def Cpu.write_widereg (cpu : Cpu) (reg : Reg) (value : Nat) : Option Cpu :=
  if reg = Reg.Invalid ∨ reg = Reg.A ∨ reg = Reg.C ∨ reg = Reg.E ∨
     reg = Reg.F ∨ reg = Reg.L then none
  else
    let regs :=
      (cpu.registers.set (reg.idx - 1) (value % 256)).set reg.idx
        (value / 256 % 256)
    some { cpu with registers := regs }

/-- `Cpu::alu_add`: wrapping 8-bit sum; carry = overflow out of bit 7;
half-carry as the source computes it: `res >> 4 != 0`, i.e. the RESULT is
at least 16 (not a nibble carry); zero = result is 0; N never set. -/
def Cpu.alu_add (cpu : Cpu) (a b : Nat) : Nat × Cpu :=
  let res := (a + b) % 256
  let flags :=
    (if 256 ≤ a + b then FLAG_C else 0) |||
    (if res / 16 ≠ 0 then FLAG_H else 0) |||
    (if res = 0 then FLAG_Z else 0)
  (res, cpu.writeF flags)

/-- `Cpu::alu_wideadd`: wrapping 16-bit sum; half-carry as the source
computes it: `res >> 12 != 0`. -/
def Cpu.alu_wideadd (cpu : Cpu) (a b : Nat) : Nat × Cpu :=
  let res := (a + b) % 65536
  let flags :=
    (if 65536 ≤ a + b then FLAG_C else 0) |||
    (if res / 4096 ≠ 0 then FLAG_H else 0) |||
    (if res = 0 then FLAG_Z else 0)
  (res, cpu.writeF flags)

/-- `Cpu::alu_adc`: as `alu_add`, but an incoming C flag adds one more to
the sum (half-carry and zero are computed before that extra add, as in
the source). -/
def Cpu.alu_adc (cpu : Cpu) (a b : Nat) : Nat × Cpu :=
  let res0 := (a + b) % 256
  let carry0 := 256 ≤ a + b
  let res := if cpu.readF &&& FLAG_C ≠ 0 then (res0 + 1) % 256 else res0
  let carry := if cpu.readF &&& FLAG_C ≠ 0 then
    (carry0 ∨ 256 ≤ res0 + 1) else carry0
  let flags :=
    (if carry then FLAG_C else 0) |||
    (if res0 / 16 ≠ 0 then FLAG_H else 0) |||
    (if res0 = 0 then FLAG_Z else 0)
  (res, cpu.writeF flags)

/-- `Cpu::alu_sub`: wrapping 8-bit difference; N always set; C set when
the subtraction did NOT borrow; H set when `b >> 4 == 0` (the source's
admittedly naive half-borrow); Z = result is 0. -/
def Cpu.alu_sub (cpu : Cpu) (a b : Nat) : Nat × Cpu :=
  let res := (a + 256 - b % 256) % 256
  let flags := FLAG_N |||
    (if a % 256 < b % 256 then 0 else FLAG_C) |||
    (if b / 16 ≠ 0 then 0 else FLAG_H) |||
    (if res = 0 then FLAG_Z else 0)
  (res, cpu.writeF flags)

/-- `Cpu::alu_sbc`: as `alu_sub`, but an incoming C flag ADDS one to the
result (as the source's FIXME notes), folding in any overflow of that
extra add as a borrow. -/
def Cpu.alu_sbc (cpu : Cpu) (a b : Nat) : Nat × Cpu :=
  let res0 := (a + 256 - b % 256) % 256
  let borrow0 := a % 256 < b % 256
  let res := if cpu.readF &&& FLAG_C ≠ 0 then (res0 + 1) % 256 else res0
  let borrow := if cpu.readF &&& FLAG_C ≠ 0 then
    (borrow0 ∨ 256 ≤ res0 + 1) else borrow0
  let flags := FLAG_N |||
    (if borrow then 0 else FLAG_C) |||
    (if b / 16 ≠ 0 then 0 else FLAG_H) |||
    (if res0 = 0 then FLAG_Z else 0)
  (res, cpu.writeF flags)

/-- `Cpu::alu_and`: bitwise AND; H always set; Z from the result. -/
def Cpu.alu_and (cpu : Cpu) (a b : Nat) : Nat × Cpu :=
  let res := a &&& b
  let flags := FLAG_H ||| (if res = 0 then FLAG_Z else 0)
  (res, cpu.writeF flags)

/-- `Cpu::alu_or`: bitwise OR; only Z may be set. -/
def Cpu.alu_or (cpu : Cpu) (a b : Nat) : Nat × Cpu :=
  let res := a ||| b
  let flags := if res = 0 then FLAG_Z else 0
  (res, cpu.writeF flags)

/-- `Cpu::alu_rlc`: rotate left by one; carry = the bit rotated around
(`a >> 7 == 1`); only C and Z written. -/
def Cpu.alu_rlc (cpu : Cpu) (a : Nat) : Nat × Cpu :=
  let res := (a * 2) % 256 ||| a / 128
  let flags :=
    (if a / 128 = 1 then FLAG_C else 0) |||
    (if res = 0 then FLAG_Z else 0)
  (res, cpu.writeF flags)

/-- `Cpu::alu_rrc`: rotate right by one; the source's carry condition
`a & 0b11111110 == 1` can never hold (an even number is never 1). -/
def Cpu.alu_rrc (cpu : Cpu) (a : Nat) : Nat × Cpu :=
  let res := a / 2 ||| (a % 2) * 128
  let flags :=
    (if a &&& 254 = 1 then FLAG_C else 0) |||
    (if res = 0 then FLAG_Z else 0)
  (res, cpu.writeF flags)

/-- `Cpu::alu_rl`: rotates left BY the incoming carry bit (by 0 or 1
positions, as the source does); carry-out = bit 7 of the input. -/
def Cpu.alu_rl (cpu : Cpu) (a : Nat) : Nat × Cpu :=
  let res := if cpu.readF &&& FLAG_C ≠ 0 then (a * 2) % 256 ||| a / 128 else a
  let flags :=
    (if a / 128 = 1 then FLAG_C else 0) |||
    (if res = 0 then FLAG_Z else 0)
  (res, cpu.writeF flags)

/-- `Cpu::alu_rr`: rotates right BY the incoming carry bit; the carry
condition `a & 0b11111110 == 1` can never hold. -/
def Cpu.alu_rr (cpu : Cpu) (a : Nat) : Nat × Cpu :=
  let res := if cpu.readF &&& FLAG_C ≠ 0 then a / 2 ||| (a % 2) * 128 else a
  let flags :=
    (if a &&& 254 = 1 then FLAG_C else 0) |||
    (if res = 0 then FLAG_Z else 0)
  (res, cpu.writeF flags)

/-- `Cpu::alu_sla`: `overflowing_shl(1)` never overflows for a shift
amount below the bit width, so the carry is always false. -/
def Cpu.alu_sla (cpu : Cpu) (a : Nat) : Nat × Cpu :=
  let res := (a * 2) % 256
  let flags := if res = 0 then FLAG_Z else 0
  (res, cpu.writeF flags)

/-- `Cpu::alu_sra`: shift right by one keeping bit 7; `overflowing_shr`
never overflows here, so the carry is always false. -/
def Cpu.alu_sra (cpu : Cpu) (a : Nat) : Nat × Cpu :=
  let res := a / 2 ||| (a &&& 128)
  let flags := if res = 0 then FLAG_Z else 0
  (res, cpu.writeF flags)

/-- `Cpu::alu_swap`: the source computes `hnimble = a >> 4`,
`lnimble = a & 0b11110000`, `res = (lnimble << 4) | hnimble`; the `u8`
shift `(a & 0xF0) << 4` discards all its bits, modelled by `% 256`. -/
def Cpu.alu_swap (cpu : Cpu) (a : Nat) : Nat × Cpu :=
  let hnimble := a / 16
  let lnimble := a &&& 240
  let res := (lnimble * 16) % 256 ||| hnimble
  let flags := if res = 0 then FLAG_Z else 0
  (res, cpu.writeF flags)

/-- `Cpu::alu_srl`: shift right by one; `overflowing_shr` never
overflows here, so the carry is always false. -/
def Cpu.alu_srl (cpu : Cpu) (a : Nat) : Nat × Cpu :=
  let res := a / 2
  let flags := if res = 0 then FLAG_Z else 0
  (res, cpu.writeF flags)

/-- `Cpu::alu_bit`: `1u8 << bit` panics in debug for `bit >= 8`
(modelled as `none`); otherwise Z = the tested bit is 0, H set, and ALL
old flags are kept (the source ORs into the full old flag byte). -/
def Cpu.alu_bit (cpu : Cpu) (a bit : Nat) : Option Cpu :=
  if 8 ≤ bit then none
  else
    let flags := cpu.readF ||| FLAG_H |||
      (if a &&& (2 ^ bit) = 0 then FLAG_Z else 0)
    some (cpu.writeF flags)

/-- `Cpu::alu_res`: pure bit clear; the `u8` shift panics in debug for
`bit >= 8`. -/
def Cpu.alu_res (a bit : Nat) : Option Nat :=
  if 8 ≤ bit then none else some (a &&& (255 ^^^ 2 ^ bit))

/-- `Cpu::alu_set`: pure bit set; the `u8` shift panics in debug for
`bit >= 8`. -/
def Cpu.alu_set (a bit : Nat) : Option Nat :=
  if 8 ≤ bit then none else some (a ||| 2 ^ bit)

/-- Lifts an operation that can panic: `none` becomes a fault carrying
the CPU state observable at the moment of the panic. -/
def orFault (cpu : Cpu) (o : Option α) : Except Cpu α :=
  match o with
  | none => .error cpu
  | some a => .ok a

/-- The reinterpretation `u16 -> i16` performed by `self.pc as i16`. -/
def toI16 (n : Nat) : Int :=
  if n < 32768 then (n : Int) else (n : Int) - 65536

/-- The relative-jump tail shared verbatim by the `JRelImm` and
`JRelCond` arms of `Cpu::execute`:
`self.pc = (self.pc as i16 + offset as i16).try_into().expect(..)`.
The `offset as i16` of a `u8` zero-extends.  Both the debug-profile
overflow of the `i16` addition and a failing `try_into` (negative
result) are panics. -/
def Cpu.jumpRel (cpu : Cpu) (offset : Nat) : Except Cpu Cpu :=
  let sum : Int := toI16 cpu.pc + (offset : Int)
  if sum < -32768 ∨ 32767 < sum then .error cpu
  else if sum < 0 then .error cpu
  else .ok { cpu with pc := sum.toNat }

/-- The dispatch `match` of `Cpu::execute`, applied to an already
decoded instruction.  `tick!` expands to nothing.  `todo!()` arms are
faults; panics inside an arm carry the state mutated so far. -/
def Cpu.execInstr (cpu : Cpu) (instr : Instr) : Except Cpu Cpu :=
  match instr with
  | .Nop => .ok cpu
  | .Halt => .error cpu
  | .LdRegReg src dst => do
      let v ← orFault cpu (cpu.read_reg src)
      orFault cpu (cpu.write_reg dst v)
  | .LdRegImm src dst => orFault cpu (cpu.write_reg dst src)
  | .LdRegMem _ _ => .error cpu
  | .LdMemReg _ _ => .error cpu
  | .LdMemHLImm => .error cpu
  | .AddRegReg src dst => do
      let a ← orFault cpu (cpu.read_reg src)
      let b ← orFault cpu (cpu.read_reg dst)
      let p := cpu.alu_add a b
      orFault p.2 (p.2.write_reg dst p.1)
  | .AddRegImm src dst => do
      let b ← orFault cpu (cpu.read_reg dst)
      let p := cpu.alu_add src b
      orFault p.2 (p.2.write_reg dst p.1)
  | .AddMemReg _ _ => .error cpu
  | .AddWRegWReg src dst => do
      let a ← orFault cpu (cpu.read_widereg src)
      let b ← orFault cpu (cpu.read_widereg dst)
      let p := cpu.alu_wideadd a b
      orFault p.2 (p.2.write_widereg dst p.1)
  | .AddWRegImm src dst => do
      let b ← orFault cpu (cpu.read_widereg dst)
      let p := cpu.alu_wideadd src b
      orFault p.2 (p.2.write_widereg dst p.1)
  | .AdcRegReg src dst => do
      let a ← orFault cpu (cpu.read_reg src)
      let b ← orFault cpu (cpu.read_reg dst)
      let p := cpu.alu_adc a b
      orFault p.2 (p.2.write_reg dst p.1)
  | .AdcRegImm src dst => do
      let b ← orFault cpu (cpu.read_reg dst)
      let p := cpu.alu_adc src b
      orFault p.2 (p.2.write_reg dst p.1)
  | .AdcMemReg _ _ => .error cpu
  | .SubReg src => do
      let a ← orFault cpu (cpu.read_reg Reg.A)
      let b ← orFault cpu (cpu.read_reg src)
      let p := cpu.alu_sub a b
      orFault p.2 (p.2.write_reg Reg.A p.1)
  | .SubImm src => do
      let a ← orFault cpu (cpu.read_reg Reg.A)
      let p := cpu.alu_sub a src
      orFault p.2 (p.2.write_reg Reg.A p.1)
  | .SubMem _ => .error cpu
  | .SbcReg src => do
      let a ← orFault cpu (cpu.read_reg Reg.A)
      let b ← orFault cpu (cpu.read_reg src)
      let p := cpu.alu_sbc a b
      orFault p.2 (p.2.write_reg Reg.A p.1)
  | .SbcImm src => do
      let a ← orFault cpu (cpu.read_reg Reg.A)
      let p := cpu.alu_sbc a src
      orFault p.2 (p.2.write_reg Reg.A p.1)
  | .SbcMem _ => .error cpu
  | .AndReg src => do
      let a ← orFault cpu (cpu.read_reg Reg.A)
      let b ← orFault cpu (cpu.read_reg src)
      let p := cpu.alu_and a b
      orFault p.2 (p.2.write_reg Reg.A p.1)
  | .AndImm src => do
      let a ← orFault cpu (cpu.read_reg Reg.A)
      let p := cpu.alu_and a src
      orFault p.2 (p.2.write_reg Reg.A p.1)
  | .AndMem _ => .error cpu
  | .OrReg src => do
      let a ← orFault cpu (cpu.read_reg Reg.A)
      let b ← orFault cpu (cpu.read_reg src)
      let p := cpu.alu_or a b
      orFault p.2 (p.2.write_reg Reg.A p.1)
  | .OrImm src => do
      let a ← orFault cpu (cpu.read_reg Reg.A)
      let p := cpu.alu_or a src
      orFault p.2 (p.2.write_reg Reg.A p.1)
  | .OrMem _ => .error cpu
  | .IncReg dst => do
      let a ← orFault cpu (cpu.read_reg dst)
      let p := cpu.alu_add a 1
      let c ← orFault p.2 (p.2.write_reg dst p.1)
      -- "increments do not modify the carry flag" — but the source XORs:
      return c.writeF (c.readF ^^^ FLAG_C)
  | .IncWReg dst => do
      let a ← orFault cpu (cpu.read_widereg dst)
      let p := cpu.alu_wideadd a 1
      let c ← orFault p.2 (p.2.write_widereg dst p.1)
      return c.writeF (c.readF ^^^ FLAG_C)
  | .IncMem _ => .error cpu
  | .DecReg dst => do
      let a ← orFault cpu (cpu.read_reg dst)
      let p := cpu.alu_sub a 1
      let c ← orFault p.2 (p.2.write_reg dst p.1)
      return c.writeF (c.readF ^^^ FLAG_C)
  | .DecWReg dst => do
      -- `checked_sub(1).unwrap_or(0)` saturates at zero, like Nat `- 1`
      let a ← orFault cpu (cpu.read_widereg dst)
      orFault cpu (cpu.write_widereg dst (a - 1))
  | .DecMem _ => .error cpu
  | .CpReg src => do
      let a ← orFault cpu (cpu.read_reg Reg.A)
      let b ← orFault cpu (cpu.read_reg src)
      return (cpu.alu_sub a b).2
  | .CpImm src => do
      let a ← orFault cpu (cpu.read_reg Reg.A)
      return (cpu.alu_sub a src).2
  | .CpMem _ => .error cpu
  | .LdWRegImm src dst => orFault cpu (cpu.write_widereg dst src)
  | .LdMemImmReg _ _ => .error cpu
  | .Push src => do
      let _ ← orFault cpu (cpu.read_widereg src)
      .error cpu
  | .Pop _ => .error cpu
  | .JPImm addr => .ok { cpu with pc := addr }
  | .JPCond cond addr =>
      if cpu.readF &&& cond ≠ cond then .ok cpu
      else .ok { cpu with pc := addr }
  | .JPReg _ => .error cpu
  | .JRelImm offset => cpu.jumpRel offset
  | .JRelCond cond offset =>
      if cpu.readF &&& cond ≠ cond then .ok cpu
      else cpu.jumpRel offset
  | .Rst _ => .error cpu
  | .RlcReg reg => do
      let a ← orFault cpu (cpu.read_reg reg)
      let p := cpu.alu_rlc a
      orFault p.2 (p.2.write_reg reg p.1)
  | .RlcMem _ => .error cpu
  | .RrcReg reg => do
      let a ← orFault cpu (cpu.read_reg reg)
      let p := cpu.alu_rrc a
      orFault p.2 (p.2.write_reg reg p.1)
  | .RrcMem _ => .error cpu
  | .RlReg reg => do
      let a ← orFault cpu (cpu.read_reg reg)
      let p := cpu.alu_rl a
      orFault p.2 (p.2.write_reg reg p.1)
  | .RlMem _ => .error cpu
  | .RrReg reg => do
      let a ← orFault cpu (cpu.read_reg reg)
      let p := cpu.alu_rr a
      orFault p.2 (p.2.write_reg reg p.1)
  | .RrMem _ => .error cpu
  | .SlaReg reg => do
      let a ← orFault cpu (cpu.read_reg reg)
      let p := cpu.alu_sla a
      orFault p.2 (p.2.write_reg reg p.1)
  | .SlaMem _ => .error cpu
  | .SraReg reg => do
      let a ← orFault cpu (cpu.read_reg reg)
      let p := cpu.alu_sra a
      orFault p.2 (p.2.write_reg reg p.1)
  | .SraMem _ => .error cpu
  | .SwapReg reg => do
      let a ← orFault cpu (cpu.read_reg reg)
      let p := cpu.alu_swap a
      orFault p.2 (p.2.write_reg reg p.1)
  | .SwapMem _ => .error cpu
  | .SrlReg reg => do
      let a ← orFault cpu (cpu.read_reg reg)
      let p := cpu.alu_srl a
      orFault p.2 (p.2.write_reg reg p.1)
  | .SrlMem _ => .error cpu
  | .BitReg reg bit => do
      let a ← orFault cpu (cpu.read_reg reg)
      orFault cpu (cpu.alu_bit a bit)
  | .BitMem _ _ => .error cpu
  | .ResReg reg bit => do
      -- the source discards the result of `alu_res` without writing it
      let a ← orFault cpu (cpu.read_reg reg)
      let _ ← orFault cpu (Cpu.alu_res a bit)
      .ok cpu
  | .ResMem _ _ => .error cpu
  | .SetReg reg bit => do
      -- the source discards the result of `alu_set` without writing it
      let a ← orFault cpu (cpu.read_reg reg)
      let _ ← orFault cpu (Cpu.alu_set a bit)
      .ok cpu
  | .SetMem _ _ => .error cpu

/-- The `decode_reg!` macro: operand from `SRC_TABLE`,
`assert!(.. != 0)`, then `Reg::from_u8`. -/
def decodeRegOp (opcode : Nat) (cpu : Cpu) (mk : Reg → Instr) :
    Except Cpu (Cpu × Option Instr) :=
  let v := SRC_TABLE.getD opcode 0
  if v = 0 then .error cpu
  else match Reg.fromU8 v with
    | none => .error cpu
    | some r => .ok (cpu, some (mk r))

/-- The `decode_imm!` macro: one immediate byte at `pc`, advancing `pc`;
panics (out of bounds) on a truncated stream. -/
def decodeImmOp (instructions : List Nat) (cpu : Cpu) (mk : Nat → Instr) :
    Except Cpu (Cpu × Option Instr) :=
  match instructions.get? cpu.pc with
  | none => .error cpu
  | some imm => .ok ({ cpu with pc := cpu.pc + 1 }, some (mk imm))

/-- The `decode_mem!` macro: operand from `SRC_TABLE`,
`assert!(.. != 0)`, then `RegAddr::from_u8`. -/
def decodeMemOp (opcode : Nat) (cpu : Cpu) (mk : RegAddr → Instr) :
    Except Cpu (Cpu × Option Instr) :=
  let v := SRC_TABLE.getD opcode 0
  if v = 0 then .error cpu
  else match RegAddr.fromU8 v with
    | none => .error cpu
    | some r => .ok (cpu, some (mk r))

/-- The `decode_reg_reg!` macro: source and destination registers from
`SRC_TABLE` / `DST_TABLE`, both asserted non-zero. -/
def decodeRegRegOp (opcode : Nat) (cpu : Cpu) (mk : Reg → Reg → Instr) :
    Except Cpu (Cpu × Option Instr) :=
  let src := SRC_TABLE.getD opcode 0
  let dst := DST_TABLE.getD opcode 0
  if src = 0 then .error cpu
  else if dst = 0 then .error cpu
  else match Reg.fromU8 src with
    | none => .error cpu
    | some s =>
      match Reg.fromU8 dst with
      | none => .error cpu
      | some d => .ok (cpu, some (mk s d))

/-- The `decode_reg_imm!` macro: the immediate byte is read (advancing
`pc`) BEFORE the destination operand is asserted non-zero. -/
def decodeRegImmOp (instructions : List Nat) (opcode : Nat) (cpu : Cpu)
    (mk : Nat → Reg → Instr) : Except Cpu (Cpu × Option Instr) :=
  match instructions.get? cpu.pc with
  | none => .error cpu
  | some imm =>
    let cpu1 : Cpu := { cpu with pc := cpu.pc + 1 }
    let dst := DST_TABLE.getD opcode 0
    if dst = 0 then .error cpu1
    else match Reg.fromU8 dst with
      | none => .error cpu1
      | some d => .ok (cpu1, some (mk imm d))

/-- The `decode_reg_mem!` macro: source register from `SRC_TABLE`,
destination address register from `DST_TABLE`. -/
def decodeRegMemOp (opcode : Nat) (cpu : Cpu) (mk : Reg → RegAddr → Instr) :
    Except Cpu (Cpu × Option Instr) :=
  let src := SRC_TABLE.getD opcode 0
  let dst := DST_TABLE.getD opcode 0
  if src = 0 then .error cpu
  else if dst = 0 then .error cpu
  else match Reg.fromU8 src with
    | none => .error cpu
    | some s =>
      match RegAddr.fromU8 dst with
      | none => .error cpu
      | some d => .ok (cpu, some (mk s d))

/-- The `decode_mem_reg!` macro: source address register from
`SRC_TABLE`, destination register from `DST_TABLE`. -/
def decodeMemRegOp (opcode : Nat) (cpu : Cpu) (mk : RegAddr → Reg → Instr) :
    Except Cpu (Cpu × Option Instr) :=
  let src := SRC_TABLE.getD opcode 0
  let dst := DST_TABLE.getD opcode 0
  if src = 0 then .error cpu
  else if dst = 0 then .error cpu
  else match RegAddr.fromU8 src with
    | none => .error cpu
    | some s =>
      match Reg.fromU8 dst with
      | none => .error cpu
      | some d => .ok (cpu, some (mk s d))

/-- A little-endian 16-bit immediate: the byte at `pc` is the low one
(`u16::from_le_bytes([immh, imml])` with `immh` read first). -/
def readImm16 (instructions : List Nat) (cpu : Cpu) :
    Except Cpu (Cpu × Nat) :=
  match instructions.get? cpu.pc with
  | none => .error cpu
  | some immh =>
    let cpu1 : Cpu := { cpu with pc := cpu.pc + 1 }
    match instructions.get? cpu1.pc with
    | none => .error cpu1
    | some imml => .ok ({ cpu1 with pc := cpu1.pc + 1 }, immh + 256 * imml)

/-- The `prefix_decode_reg!` macro: operand from `PREFIX_DST_TABLE`
(indexed, like the source, by the CURRENT opcode byte). -/
def prefixDecodeRegOp (opcode : Nat) (cpu : Cpu) (mk : Reg → Instr) :
    Except Cpu (Cpu × Option Instr) :=
  let v := PREFIX_DST_TABLE.getD opcode 0
  if v = 0 then .error cpu
  else match Reg.fromU8 v with
    | none => .error cpu
    | some r => .ok (cpu, some (mk r))

/-- The `prefix_decode_mem!` macro. -/
def prefixDecodeMemOp (opcode : Nat) (cpu : Cpu) (mk : RegAddr → Instr) :
    Except Cpu (Cpu × Option Instr) :=
  let v := PREFIX_DST_TABLE.getD opcode 0
  if v = 0 then .error cpu
  else match RegAddr.fromU8 v with
    | none => .error cpu
    | some r => .ok (cpu, some (mk r))

/-- The `prefix_decode_reg_imm!` macro: immediate byte first, then the
register operand from `PREFIX_DST_TABLE`. -/
def prefixDecodeRegImmOp (instructions : List Nat) (opcode : Nat)
    (cpu : Cpu) (mk : Reg → Nat → Instr) : Except Cpu (Cpu × Option Instr) :=
  match instructions.get? cpu.pc with
  | none => .error cpu
  | some imm =>
    let cpu1 : Cpu := { cpu with pc := cpu.pc + 1 }
    let dst := PREFIX_DST_TABLE.getD opcode 0
    if dst = 0 then .error cpu1
    else match Reg.fromU8 dst with
      | none => .error cpu1
      | some d => .ok (cpu1, some (mk d imm))

/-- The `prefix_decode_mem_imm!` macro. -/
def prefixDecodeMemImmOp (instructions : List Nat) (opcode : Nat)
    (cpu : Cpu) (mk : RegAddr → Nat → Instr) :
    Except Cpu (Cpu × Option Instr) :=
  match instructions.get? cpu.pc with
  | none => .error cpu
  | some imm =>
    let cpu1 : Cpu := { cpu with pc := cpu.pc + 1 }
    let dst := PREFIX_DST_TABLE.getD opcode 0
    if dst = 0 then .error cpu1
    else match RegAddr.fromU8 dst with
      | none => .error cpu1
      | some d => .ok (cpu1, some (mk d imm))

/-- The inline `LdWRegImm` arm of the base match: a 16-bit immediate,
then the destination from `DST_TABLE`, asserted non-zero. -/
def decodeLdWRegImm (instructions : List Nat) (opcode : Nat) (cpu : Cpu) :
    Except Cpu (Cpu × Option Instr) :=
  match readImm16 instructions cpu with
  | .error c => .error c
  | .ok (cpu1, imm) =>
    let dst := DST_TABLE.getD opcode 0
    if dst = 0 then .error cpu1
    else match Reg.fromU8 dst with
      | none => .error cpu1
      | some d => .ok (cpu1, some (Instr.LdWRegImm imm d))

/-- The inline `LdMemImmReg` arm of the base match: a 16-bit immediate,
then the source from `SRC_TABLE`, asserted non-zero. -/
def decodeLdMemImmReg (instructions : List Nat) (opcode : Nat) (cpu : Cpu) :
    Except Cpu (Cpu × Option Instr) :=
  match readImm16 instructions cpu with
  | .error c => .error c
  | .ok (cpu1, imm) =>
    let src := SRC_TABLE.getD opcode 0
    if src = 0 then .error cpu1
    else match Reg.fromU8 src with
      | none => .error cpu1
      | some s => .ok (cpu1, some (Instr.LdMemImmReg s imm))

/-- The inline `JPImm` arm of the base match: just a 16-bit immediate. -/
def decodeJPImm (instructions : List Nat) (cpu : Cpu) :
    Except Cpu (Cpu × Option Instr) :=
  match readImm16 instructions cpu with
  | .error c => .error c
  | .ok (cpu1, imm) => .ok (cpu1, some (Instr.JPImm imm))

/-- The inline `JPCond` arm of the base match: a 16-bit immediate, then
the condition mask from `SRC_TABLE`, asserted non-zero. -/
def decodeJPCond (instructions : List Nat) (opcode : Nat) (cpu : Cpu) :
    Except Cpu (Cpu × Option Instr) :=
  match readImm16 instructions cpu with
  | .error c => .error c
  | .ok (cpu1, imm) =>
    let cond := SRC_TABLE.getD opcode 0
    if cond = 0 then .error cpu1
    else .ok (cpu1, some (Instr.JPCond cond imm))

/-- The inline `JRelCond` arm of the base match: one immediate byte,
then the condition mask from `SRC_TABLE`, asserted non-zero. -/
def decodeJRelCond (instructions : List Nat) (opcode : Nat) (cpu : Cpu) :
    Except Cpu (Cpu × Option Instr) :=
  match instructions.get? cpu.pc with
  | none => .error cpu
  | some imm =>
    let cpu1 : Cpu := { cpu with pc := cpu.pc + 1 }
    let cond := SRC_TABLE.getD opcode 0
    if cond = 0 then .error cpu1
    else .ok (cpu1, some (Instr.JRelCond cond imm))

/-- The common (unprefixed) `match` of `Cpu::decode`, dispatching on the
kind found in `INST_KIND_TABLE`; the catch-all arm yields `None`. -/
def decodeKind (instructions : List Nat) (opcode : Nat) (cpu : Cpu) :
    InstrKind → Except Cpu (Cpu × Option Instr)
  | .Halt => .ok (cpu, some Instr.Halt)
  | .LdRegReg => decodeRegRegOp opcode cpu Instr.LdRegReg
  | .LdRegImm => decodeRegImmOp instructions opcode cpu Instr.LdRegImm
  | .LdRegMem => decodeRegMemOp opcode cpu Instr.LdRegMem
  | .LdMemReg => decodeMemRegOp opcode cpu Instr.LdMemReg
  | .AddRegReg => decodeRegRegOp opcode cpu Instr.AddRegReg
  | .AddRegImm => decodeRegImmOp instructions opcode cpu Instr.AddRegImm
  | .AddMemReg => decodeMemRegOp opcode cpu Instr.AddMemReg
  | .AddWRegWReg => decodeRegRegOp opcode cpu Instr.AddWRegWReg
  | .AdcRegReg => decodeRegRegOp opcode cpu Instr.AdcRegReg
  | .AdcRegImm => decodeRegImmOp instructions opcode cpu Instr.AdcRegImm
  | .AdcMemReg => decodeMemRegOp opcode cpu Instr.AdcMemReg
  | .SubReg => decodeRegOp opcode cpu Instr.SubReg
  | .SubImm => decodeImmOp instructions cpu Instr.SubImm
  | .SubMem => decodeMemOp opcode cpu Instr.SubMem
  | .SbcReg => decodeRegOp opcode cpu Instr.SbcReg
  | .SbcImm => decodeImmOp instructions cpu Instr.SbcImm
  | .SbcMem => decodeMemOp opcode cpu Instr.SbcMem
  | .AndReg => decodeRegOp opcode cpu Instr.AndReg
  | .AndImm => decodeImmOp instructions cpu Instr.AndImm
  | .AndMem => decodeMemOp opcode cpu Instr.AndMem
  | .OrReg => decodeRegOp opcode cpu Instr.OrReg
  | .OrImm => decodeImmOp instructions cpu Instr.OrImm
  | .OrMem => decodeMemOp opcode cpu Instr.OrMem
  | .IncReg => decodeRegOp opcode cpu Instr.IncReg
  | .IncWReg => decodeRegOp opcode cpu Instr.IncWReg
  | .IncMem => decodeMemOp opcode cpu Instr.IncMem
  | .DecReg => decodeRegOp opcode cpu Instr.DecReg
  | .DecWReg => decodeRegOp opcode cpu Instr.DecWReg
  | .DecMem => decodeMemOp opcode cpu Instr.DecMem
  | .CpReg => decodeRegOp opcode cpu Instr.CpReg
  | .CpImm => decodeImmOp instructions cpu Instr.CpImm
  | .CpMem => decodeMemOp opcode cpu Instr.CpMem
  | .LdWRegImm => decodeLdWRegImm instructions opcode cpu
  | .LdMemImmReg => decodeLdMemImmReg instructions opcode cpu
  | .Push => decodeRegOp opcode cpu Instr.Push
  | .Pop => decodeRegOp opcode cpu Instr.Pop
  | .JPImm => decodeJPImm instructions cpu
  | .JPCond => decodeJPCond instructions opcode cpu
  | .JPReg => decodeRegOp opcode cpu Instr.JPReg
  | .JRelImm => decodeImmOp instructions cpu Instr.JRelImm
  | .JRelCond => decodeJRelCond instructions opcode cpu
  | _ => .ok (cpu, none)

/-- The prefixed-instruction `match` of `Cpu::decode`, dispatching on
the kind found in `PREFIX_TABLE`; the catch-all arm yields `None`.  As
in the source, all tables are indexed by the CURRENT opcode byte. -/
def decodePrefixedKind (instructions : List Nat) (opcode : Nat) (cpu : Cpu) :
    InstrKind → Except Cpu (Cpu × Option Instr)
  | .RlcReg => prefixDecodeRegOp opcode cpu Instr.RlcReg
  | .RlcMem => prefixDecodeMemOp opcode cpu Instr.RlcMem
  | .RrcReg => prefixDecodeRegOp opcode cpu Instr.RrcReg
  | .RrcMem => prefixDecodeMemOp opcode cpu Instr.RrcMem
  | .RlReg => prefixDecodeRegOp opcode cpu Instr.RlReg
  | .RlMem => prefixDecodeMemOp opcode cpu Instr.RlMem
  | .RrReg => prefixDecodeRegOp opcode cpu Instr.RrReg
  | .RrMem => prefixDecodeMemOp opcode cpu Instr.RrMem
  | .SlaReg => prefixDecodeRegOp opcode cpu Instr.SlaReg
  | .SlaMem => prefixDecodeMemOp opcode cpu Instr.SlaMem
  | .SraReg => prefixDecodeRegOp opcode cpu Instr.SraReg
  | .SraMem => prefixDecodeMemOp opcode cpu Instr.SraMem
  | .BitReg => prefixDecodeRegImmOp instructions opcode cpu Instr.BitReg
  | .BitMem => prefixDecodeMemImmOp instructions opcode cpu Instr.BitMem
  | .ResReg => prefixDecodeRegImmOp instructions opcode cpu Instr.ResReg
  | .ResMem => prefixDecodeMemImmOp instructions opcode cpu Instr.ResMem
  | .SetReg => prefixDecodeRegImmOp instructions opcode cpu Instr.SetReg
  | .SetMem => prefixDecodeMemImmOp instructions opcode cpu Instr.SetMem
  | _ => .ok (cpu, none)

/-- The base-table stage of `Cpu::decode`: classify through
`INST_KIND_TABLE` (with the debug assertion of `InstrKind::from_u8`)
and run the matching arm. -/
def decodeBase (instructions : List Nat) (opcode : Nat) (cpu : Cpu) :
    Except Cpu (Cpu × Option Instr) :=
  match InstrKind.fromU8 (INST_KIND_TABLE.getD opcode 0) with
  | none => .error cpu
  | some k => decodeKind instructions opcode cpu k

/-- The prefixed stage of `Cpu::decode`: classify through
`PREFIX_TABLE` (indexed by the current opcode byte, i.e. 0xCB itself)
and run the matching arm. -/
def decodePrefixed (instructions : List Nat) (opcode : Nat) (cpu : Cpu) :
    Except Cpu (Cpu × Option Instr) :=
  match InstrKind.fromU8 (PREFIX_TABLE.getD opcode 0) with
  | none => .error cpu
  | some k => decodePrefixedKind instructions opcode cpu k

/-- `Cpu::decode`: read the opcode at `pc` (panic when past the end of
the stream), advance `pc`, run the base match, and then the
prefixed-instruction conditional — whose `else` branch is an
unconditional `unreachable!()` panic. -/
def Cpu.decode (cpu : Cpu) (instructions : List Nat) :
    Except Cpu (Cpu × Option Instr) :=
  match instructions.get? cpu.pc with
  | none => .error cpu
  | some opcode =>
    let cpu1 : Cpu := { cpu with pc := cpu.pc + 1 }
    match decodeBase instructions opcode cpu1 with
    | .error c => .error c
    | .ok (cpu2, res) =>
      if res.isNone && opcode == 203 then decodePrefixed instructions opcode cpu2
      else .error cpu2

/-- `Cpu::execute`: decode (the `?` operator propagates a `None` from
`decode` as a `None` result), then dispatch.  `.ok (c, none)` models the
Rust `None` return, `.ok (c, some ())` models `Some(())`, and
`.error c` a panic with observable state `c`. -/
def Cpu.execute (cpu : Cpu) (instructions : List Nat) :
    Except Cpu (Cpu × Option Unit) :=
  match cpu.decode instructions with
  | .error c => .error c
  | .ok (cpu1, none) => .ok (cpu1, none)
  | .ok (cpu1, some instr) =>
    match cpu1.execInstr instr with
    | .error c => .error c
    | .ok c => .ok (c, some ())

/-- The MMU backing store (`src/mmu.rs`): `memory: [u8; u16::MAX as
usize]` — an array of `u16::MAX = 65535` bytes, so the valid indices
are `0 ..= 0xFFFE`. -/
structure Mmu where
  memory : Nat → Nat

/-- The length of the MMU array: `u16::MAX as usize`. -/
def MMU_LEN : Nat := 65535

/-- `Mmu::new`: zeroed memory. -/
def Mmu.new : Mmu := ⟨fun _ => 0⟩

/-- `Mmu::read_word`: `self.memory.get(addr.0 as usize)` — `Some` of
the stored byte exactly for indices below the array length. -/
def Mmu.read_word (m : Mmu) (addr : Nat) : Option Nat :=
  if addr < MMU_LEN then some (m.memory addr) else none

/-- The CPU state carried by either side of a decode result: the state a
caller observes on success, or — by catching the unwinding panic — on a
fault. -/
def resultCpu : Except Cpu (Cpu × Option Instr) → Cpu
  | .error c => c
  | .ok (c, _) => c

/-- As `resultCpu`, for the 16-bit immediate reader. -/
def resultCpu16 : Except Cpu (Cpu × Nat) → Cpu
  | .error c => c
  | .ok (c, _) => c

theorem regs_decodeRegOp (opcode : Nat) (cpu : Cpu) (mk : Reg → Instr) :
    (resultCpu (decodeRegOp opcode cpu mk)).registers = cpu.registers := by
  simp only [decodeRegOp]
  split
  · rfl
  · split <;> rfl

theorem regs_decodeImmOp (instructions : List Nat) (cpu : Cpu)
    (mk : Nat → Instr) :
    (resultCpu (decodeImmOp instructions cpu mk)).registers =
      cpu.registers := by
  simp only [decodeImmOp]
  split <;> rfl

theorem regs_decodeMemOp (opcode : Nat) (cpu : Cpu) (mk : RegAddr → Instr) :
    (resultCpu (decodeMemOp opcode cpu mk)).registers = cpu.registers := by
  simp only [decodeMemOp]
  split
  · rfl
  · split <;> rfl

theorem regs_decodeRegRegOp (opcode : Nat) (cpu : Cpu)
    (mk : Reg → Reg → Instr) :
    (resultCpu (decodeRegRegOp opcode cpu mk)).registers =
      cpu.registers := by
  simp only [decodeRegRegOp]
  split
  · rfl
  · split
    · rfl
    · split
      · rfl
      · split <;> rfl

theorem regs_decodeRegImmOp (instructions : List Nat) (opcode : Nat)
    (cpu : Cpu) (mk : Nat → Reg → Instr) :
    (resultCpu (decodeRegImmOp instructions opcode cpu mk)).registers =
      cpu.registers := by
  simp only [decodeRegImmOp]
  split
  · rfl
  · split
    · rfl
    · split <;> rfl

theorem regs_decodeRegMemOp (opcode : Nat) (cpu : Cpu)
    (mk : Reg → RegAddr → Instr) :
    (resultCpu (decodeRegMemOp opcode cpu mk)).registers =
      cpu.registers := by
  simp only [decodeRegMemOp]
  split
  · rfl
  · split
    · rfl
    · split
      · rfl
      · split <;> rfl

theorem regs_decodeMemRegOp (opcode : Nat) (cpu : Cpu)
    (mk : RegAddr → Reg → Instr) :
    (resultCpu (decodeMemRegOp opcode cpu mk)).registers =
      cpu.registers := by
  simp only [decodeMemRegOp]
  split
  · rfl
  · split
    · rfl
    · split
      · rfl
      · split <;> rfl

theorem regs_readImm16 (instructions : List Nat) (cpu : Cpu) :
    (resultCpu16 (readImm16 instructions cpu)).registers =
      cpu.registers := by
  simp only [readImm16]
  split
  · rfl
  · split <;> rfl

theorem regs_decodeLdWRegImm (instructions : List Nat) (opcode : Nat)
    (cpu : Cpu) :
    (resultCpu (decodeLdWRegImm instructions opcode cpu)).registers =
      cpu.registers := by
  have hr := regs_readImm16 instructions cpu
  simp only [decodeLdWRegImm]
  split
  · rename_i c heq
    rw [heq] at hr
    exact hr
  · rename_i cpu1 imm heq
    rw [heq] at hr
    split
    · exact hr
    · split <;> exact hr

theorem regs_decodeLdMemImmReg (instructions : List Nat) (opcode : Nat)
    (cpu : Cpu) :
    (resultCpu (decodeLdMemImmReg instructions opcode cpu)).registers =
      cpu.registers := by
  have hr := regs_readImm16 instructions cpu
  simp only [decodeLdMemImmReg]
  split
  · rename_i c heq
    rw [heq] at hr
    exact hr
  · rename_i cpu1 imm heq
    rw [heq] at hr
    split
    · exact hr
    · split <;> exact hr

theorem regs_decodeJPImm (instructions : List Nat) (cpu : Cpu) :
    (resultCpu (decodeJPImm instructions cpu)).registers =
      cpu.registers := by
  have hr := regs_readImm16 instructions cpu
  simp only [decodeJPImm]
  split
  · rename_i c heq
    rw [heq] at hr
    exact hr
  · rename_i cpu1 imm heq
    rw [heq] at hr
    exact hr

theorem regs_decodeJPCond (instructions : List Nat) (opcode : Nat)
    (cpu : Cpu) :
    (resultCpu (decodeJPCond instructions opcode cpu)).registers =
      cpu.registers := by
  have hr := regs_readImm16 instructions cpu
  simp only [decodeJPCond]
  split
  · rename_i c heq
    rw [heq] at hr
    exact hr
  · rename_i cpu1 imm heq
    rw [heq] at hr
    split <;> exact hr

theorem regs_decodeJRelCond (instructions : List Nat) (opcode : Nat)
    (cpu : Cpu) :
    (resultCpu (decodeJRelCond instructions opcode cpu)).registers =
      cpu.registers := by
  simp only [decodeJRelCond]
  split
  · rfl
  · split <;> rfl

theorem regs_decodeKind (instructions : List Nat) (opcode : Nat) (cpu : Cpu)
    (k : InstrKind) :
    (resultCpu (decodeKind instructions opcode cpu k)).registers =
      cpu.registers := by
  cases k <;>
    first
      | rfl
      | exact regs_decodeRegOp opcode cpu _
      | exact regs_decodeImmOp instructions cpu _
      | exact regs_decodeMemOp opcode cpu _
      | exact regs_decodeRegRegOp opcode cpu _
      | exact regs_decodeRegImmOp instructions opcode cpu _
      | exact regs_decodeRegMemOp opcode cpu _
      | exact regs_decodeMemRegOp opcode cpu _
      | exact regs_decodeLdWRegImm instructions opcode cpu
      | exact regs_decodeLdMemImmReg instructions opcode cpu
      | exact regs_decodeJPImm instructions cpu
      | exact regs_decodeJPCond instructions opcode cpu
      | exact regs_decodeJRelCond instructions opcode cpu

theorem regs_decodeBase (instructions : List Nat) (opcode : Nat)
    (cpu : Cpu) :
    (resultCpu (decodeBase instructions opcode cpu)).registers =
      cpu.registers := by
  simp only [decodeBase]
  split
  · rfl
  · exact regs_decodeKind instructions opcode cpu _

/-- `INST_KIND_TABLE[0xCB] = 46`, which (being above 10) fails the
debug assertion of `InstrKind::from_u8` — so the base stage always
faults on the escape byte, before any immediate is read. -/
theorem decodeBase_escape_faults (instructions : List Nat) (cpu : Cpu) :
    decodeBase instructions 203 cpu = .error cpu := rfl

theorem decode_isOk_false (instructions : List Nat) (cpu : Cpu) :
    (cpu.decode instructions).isOk = false := by
  simp only [Cpu.decode]
  split
  · rfl
  · rename_i opcode hget
    split
    · rfl
    · rename_i cpu2 res heqdb
      split
      · rename_i hcond
        have hop : opcode = 203 := by
          have h2 := (Bool.and_eq_true _ _).mp hcond
          simpa using h2.2
        subst hop
        rw [decodeBase_escape_faults] at heqdb
        simp at heqdb
      · rfl

theorem regs_decode (instructions : List Nat) (cpu : Cpu) :
    (resultCpu (cpu.decode instructions)).registers = cpu.registers := by
  simp only [Cpu.decode]
  split
  · rfl
  · rename_i opcode hget
    have hr := regs_decodeBase instructions opcode { cpu with pc := cpu.pc + 1 }
    split
    · rename_i c heqdb
      rw [heqdb] at hr
      exact hr
    · rename_i cpu2 res heqdb
      split
      · rename_i hcond
        have hop : opcode = 203 := by
          have h2 := (Bool.and_eq_true _ _).mp hcond
          simpa using h2.2
        subst hop
        rw [decodeBase_escape_faults] at heqdb
        simp at heqdb
      · rw [heqdb] at hr
        exact hr

theorem decode_error_regs (instructions : List Nat) (cpu c : Cpu)
    (h : cpu.decode instructions = .error c) :
    c.registers = cpu.registers := by
  have hr := regs_decode instructions cpu
  rw [h] at hr
  exact hr

/-- C1: the claim states that every opcode whose `INST_KIND_TABLE` entry
is non-zero decodes to an instruction with no fault.  The code violates
it: decoding the stream `[0x40]` (LD B,B, kind-table entry 2) produces
the instruction in the base match and then panics at the unconditional
`unreachable!()` else-branch of the prefixed-instruction conditional —
the very behaviour the crate's own `it_works` test asserts against.  The
theorem evaluates the decoder at that failing input. -/
theorem C1_assigned_opcode_still_faults :
    INST_KIND_TABLE.getD 64 0 ≠ 0 ∧
    Cpu.decode Cpu.new [64] = .error { Cpu.new with pc := 1 } :=
  ⟨by decide, rfl⟩

/-- C2: the claim states `alu_add` sets H iff `(a mod 16) + (b mod 16) ≥
16`.  The code instead tests the high nibble of the RESULT
(`res >> 4 != 0`).  At `a = 16, b = 0` the result is 16, the nibble sum
is 0, yet the code sets H (and only H): the flag byte is exactly
`FLAG_H`.  The result, C, Z and N clauses of the claim hold. -/
theorem C2_alu_add_half_carry_mismatch :
    (Cpu.alu_add Cpu.new 16 0).1 = 16 ∧
    ((Cpu.alu_add Cpu.new 16 0).2).readF = FLAG_H ∧
    16 % 16 + 0 % 16 < 16 :=
  ⟨rfl, rfl, by decide⟩

/-- C3: the claim states an 8-bit register increment preserves the
pre-instruction C flag, and that `INC A` from `A=0xFF` ends with Z and H
set.  The code XORs `FLAG_C` into the flags freshly computed by
`alu_add`, toggling the carry-out rather than restoring the old carry:
from `A=0xFF, F=FLAG_C` (C set) the final flag byte is exactly `FLAG_Z`
— C has been cleared and H is clear as well. -/
theorem C3_inc_reg_carry_not_preserved :
    Cpu.execInstr ⟨[255, 16, 0, 0, 0, 0, 0, 0, 0, 0], 0⟩
        (Instr.IncReg Reg.A) =
      .ok ⟨[0, 128, 0, 0, 0, 0, 0, 0, 0, 0], 0⟩ ∧
    16 &&& FLAG_C = FLAG_C ∧
    128 &&& FLAG_C = 0 ∧
    128 &&& FLAG_H = 0 ∧
    128 = FLAG_Z :=
  ⟨rfl, by decide, by decide, by decide, rfl⟩

/-- C4: the claim states that on the escape byte 0xCB the decoder
consumes the NEXT byte as the extended opcode and dispatches through the
extended tables.  In the code, 0xCB is classified through the BASE kind
table (entry 46, a conditional jump) and the decode faults at the
`InstrKind::from_u8` debug assertion (release: at `assert!(cond != 0)`,
since `SRC_TABLE[0xCB] = 0`) with `pc` advanced only past 0xCB itself;
the prefixed branch — which would index the extended tables with 0xCB
rather than the following byte — is unreachable. -/
theorem C4_escape_byte_faults_in_base_space :
    INST_KIND_TABLE.getD 203 0 = 46 ∧
    SRC_TABLE.getD 203 0 = 0 ∧
    Cpu.decode Cpu.new [203, 0, 0] = .error { Cpu.new with pc := 1 } :=
  ⟨by decide, by decide, rfl⟩

/-- C5 (confirmed): executing a conditional relative jump overwrites the
program counter iff every set bit of the condition mask is also set in
the flag byte (`flags & cond == cond`); when the condition fails the
whole CPU state — in particular `pc`, which `decode` left at
instruction start + instruction length — is returned unchanged.  The
taken branch is stated under the side conditions that keep the source's
`i16` arithmetic in range. -/
theorem C5_jrelcond_cond_mask (cpu : Cpu) (cond offset : Nat) :
    (¬ (cpu.readF &&& cond = cond) →
      cpu.execInstr (Instr.JRelCond cond offset) = .ok cpu) ∧
    (cpu.pc < 32768 → cpu.pc + offset ≤ 32767 →
      cpu.execInstr (Instr.JRelCond cond offset) =
        .ok (if cpu.readF &&& cond = cond
             then { cpu with pc := cpu.pc + offset } else cpu)) := by
  constructor
  · intro h
    simp only [Cpu.execInstr]
    rw [if_pos h]
  · intro hpc hsum
    by_cases hs : cpu.readF &&& cond = cond
    · simp only [Cpu.execInstr]
      rw [if_neg (not_not_intro hs), if_pos hs]
      simp only [Cpu.jumpRel, toI16]
      rw [if_pos hpc]
      have h1 : ¬ ((cpu.pc : Int) + (offset : Int) < -32768 ∨
          (32767 : Int) < (cpu.pc : Int) + (offset : Int)) := by
        omega
      have h2 : ¬ ((cpu.pc : Int) + (offset : Int) < 0) := by
        omega
      rw [if_neg h1, if_neg h2]
      have h3 : ((cpu.pc : Int) + (offset : Int)).toNat =
          cpu.pc + offset := by
        omega
      rw [h3]
    · simp only [Cpu.execInstr]
      rw [if_pos hs, if_neg hs]

/-- Witness for C5, at `F = 0x80` (Z set), `pc = 10`, `offset = 5`: the
mask 0x40 is not satisfied and the CPU is unchanged; the mask 0x80 is
satisfied and `pc` becomes 15. -/
theorem C5_jrelcond_cond_mask_witness :
    Cpu.execInstr ⟨[0, 128, 0, 0, 0, 0, 0, 0, 0, 0], 10⟩
        (Instr.JRelCond 64 5) =
      .ok ⟨[0, 128, 0, 0, 0, 0, 0, 0, 0, 0], 10⟩ ∧
    Cpu.execInstr ⟨[0, 128, 0, 0, 0, 0, 0, 0, 0, 0], 10⟩
        (Instr.JRelCond 128 5) =
      .ok ⟨[0, 128, 0, 0, 0, 0, 0, 0, 0, 0], 15⟩ := by
  constructor
  · exact (C5_jrelcond_cond_mask ⟨[0, 128, 0, 0, 0, 0, 0, 0, 0, 0], 10⟩
      64 5).1 (by decide)
  · have h := (C5_jrelcond_cond_mask ⟨[0, 128, 0, 0, 0, 0, 0, 0, 0, 0], 10⟩
      128 5).2 (by decide) (by decide)
    rw [h]
    rfl

/-- Counterexample for C6: the claim says the wide-register operations
succeed for the pair head `A` and fail for `SP`'s companions — but
`read_widereg`/`write_widereg` panic on `A` (it is in the rejection
list) while `SP` succeeds, assembling the two stack-pointer bytes. -/
theorem C6_widereg_counterexample :
    Cpu.read_widereg ⟨[1, 2, 3, 4, 5, 6, 7, 8, 9, 10], 0⟩ Reg.A = none ∧
    Cpu.write_widereg ⟨[1, 2, 3, 4, 5, 6, 7, 8, 9, 10], 0⟩ Reg.A 0 = none ∧
    Cpu.read_widereg ⟨[1, 2, 3, 4, 5, 6, 7, 8, 9, 10], 0⟩ Reg.SP =
      some 2569 :=
  ⟨rfl, rfl, rfl⟩

/-- C6 as amended: `read_widereg` and `write_widereg` succeed exactly
for `B`, `D`, `H` and `SP` — reading little-endian (low byte in the
first slot) and writing the split halves — and fail (fatally, in the
debug profile) for `Invalid`, `A`, `C`, `E`, `F` and `L`. -/
theorem C6_widereg_pair_heads (cpu : Cpu) (reg : Reg) :
    ((cpu.read_widereg reg).isSome = true ↔
      (reg = Reg.B ∨ reg = Reg.D ∨ reg = Reg.H ∨ reg = Reg.SP)) ∧
    (∀ v, (cpu.write_widereg reg v).isSome = true ↔
      (reg = Reg.B ∨ reg = Reg.D ∨ reg = Reg.H ∨ reg = Reg.SP)) ∧
    ((reg = Reg.B ∨ reg = Reg.D ∨ reg = Reg.H ∨ reg = Reg.SP) →
      cpu.read_widereg reg =
        some (cpu.registers.getD (reg.idx - 1) 0 +
              256 * cpu.registers.getD reg.idx 0) ∧
      ∀ v, cpu.write_widereg reg v =
        some ⟨(cpu.registers.set (reg.idx - 1) (v % 256)).set reg.idx
          (v / 256 % 256), cpu.pc⟩) := by
  cases reg <;>
    simp [Cpu.read_widereg, Cpu.write_widereg, Reg.idx]

/-- Witness for C6, discharging the pair-head hypothesis at `B`: the
value is assembled little-endian from the two adjacent slots
(`3 + 256 * 4 = 1027`). -/
theorem C6_widereg_pair_heads_witness :
    Cpu.read_widereg ⟨[1, 2, 3, 4, 5, 6, 7, 8, 9, 10], 0⟩ Reg.B =
      some 1027 := by
  have h := (C6_widereg_pair_heads ⟨[1, 2, 3, 4, 5, 6, 7, 8, 9, 10], 0⟩
    Reg.B).2.2 (Or.inl rfl)
  exact h.1.trans rfl

/-- Counterexample for C7: executing the stream `[0x06, 0x2A]` (LD B,
0x2A) from a fresh CPU faults (at the `unreachable!()`), and the state
observable at the fault has `pc = 2` — not the `pc = 0` the step began
with, so the program counter IS partially mutated. -/
theorem C7_fault_counterexample :
    Cpu.execute Cpu.new [6, 42] = .error { Cpu.new with pc := 2 } ∧
    Cpu.new.pc ≠ 2 :=
  ⟨rfl, by decide⟩

/-- C7 as amended: whenever a `step` (`Cpu::execute`) faults, the
ten-byte register array — all 8-bit registers and SP — still holds
exactly its initial contents; only the program counter may have moved
(past the bytes consumed before the fault). -/
theorem C7_fault_preserves_register_array (instructions : List Nat)
    (cpu c : Cpu) (h : cpu.execute instructions = .error c) :
    c.registers = cpu.registers := by
  unfold Cpu.execute at h
  cases hd : cpu.decode instructions with
  | error c1 =>
    rw [hd] at h
    have h2 : c1 = c := by simpa using h
    subst h2
    exact decode_error_regs instructions cpu c1 hd
  | ok p =>
    have hk := decode_isOk_false instructions cpu
    rw [hd] at hk
    exact Bool.noConfusion hk

/-- Witness for C7, discharging the fault hypothesis on the concrete
stream `[0x06, 0x2A]`. -/
theorem C7_fault_preserves_register_array_witness :
    ({ Cpu.new with pc := 2 } : Cpu).registers = Cpu.new.registers :=
  C7_fault_preserves_register_array [6, 42] Cpu.new
    { Cpu.new with pc := 2 } rfl

/-- C8: the claim states `alu_swap` exchanges the nibbles and is an
involution.  In the code `(a & 0xF0) << 4` vanishes modulo 256, so the
operation is just `a >> 4`: on 0x12 it returns 0x01 (the claim expects
0x21 = 33), and applying it twice gives 0, not the original value. -/
theorem C8_alu_swap_not_involution :
    (Cpu.alu_swap Cpu.new 18).1 = 1 ∧
    18 % 16 * 16 + 18 / 16 = 33 ∧
    (Cpu.alu_swap Cpu.new ((Cpu.alu_swap Cpu.new 18).1)).1 = 0 :=
  ⟨rfl, by decide, rfl⟩

/-- C9: the claim states `read_word` succeeds for every 16-bit address,
in particular 0xFFFF.  The backing array is `[u8; u16::MAX as usize]` =
65535 bytes, so the highest address 0xFFFF is OUT of range and the read
fails, while every address below 65535 succeeds. -/
theorem C9_mmu_read_top_address (m : Mmu) (a : Nat) :
    m.read_word 65535 = none ∧
    ((m.read_word a).isSome = true ↔ a < MMU_LEN) := by
  constructor
  · simp [Mmu.read_word, MMU_LEN]
  · by_cases h : a < MMU_LEN <;> simp [Mmu.read_word, h]

/-- C10 (confirmed): `Cpu::decode` never returns — for every byte
stream and every starting state it ends in a panic (the `unreachable!()`
else-branch, or an earlier assertion/out-of-bounds panic), never in
`Some(instr)` and never in `None`. -/
theorem C10_decode_never_returns (instructions : List Nat) (cpu : Cpu) :
    (cpu.decode instructions).isOk = false :=
  decode_isOk_false instructions cpu

end Gameboi
